import Mathlib

/-!
Verification of the sampling-and-resilience engine of the RPi OLED system
monitor.  The embedding below translates the relevant parts of
`rpi_support.py` (metric sampler `get_system_stat`, the carousel logic and
the main scheduler loop) and of the standalone diagnostic `test_power.py`
(the tolerant token-by-token PMIC rail reader `read_pmic_power`).

Python floats are modelled as rationals (exact field arithmetic; the decimal
literals produced by `vcgencmd` are exactly representable there), Python
strings as `List Char`, Python dicts with string keys as insertion-ordered
association lists with unique keys, and raised exceptions as `Except` values
carrying the exception's name.  External collaborators (psutil, subprocess
outputs, the socket API, the INA219 driver, the display driver) are supplied
as explicit environment records of their per-tick outcomes.
-/

deriving instance DecidableEq for Except

/- Batteries marks the rational-number arithmetic irreducible, which blocks
`decide` on ground rational facts; the kernel reduces these definitions fine,
so restore reducibility for concrete evaluation. -/
set_option allowUnsafeReducibility true in
attribute [semireducible] Rat.add Rat.sub Rat.mul Rat.div Rat.inv Rat.neg Rat.blt

namespace RPiSupport

/-- `DISP_REF_INTERVAL = 1` (rpi_support.py line 19), the steady refresh
interval in seconds. -/
def DISP_REF_INTERVAL : ℚ := 1

/-- `IP_SHOW_TIME = 5` (rpi_support.py line 20), seconds each IP is shown. -/
def IP_SHOW_TIME : ℚ := 5

/-! ## Python string primitives (ASCII; all inputs here are ASCII) -/

/-- Python whitespace for `str.strip` / `str.split()` / regex `\s`. -/
def isPySpace (c : Char) : Bool :=
  c = ' ' || c = '\t' || c = '\n' || c = '\r' || c = '\x0b' || c = '\x0c'

/-- Regex `[\w\d_]` character class (ASCII fragment). -/
def isWordChar (c : Char) : Bool := c.isAlphanum || c = '_'

/-- Python `str.strip()` with no argument: drop whitespace at both ends. -/
def pyStrip (s : List Char) : List Char :=
  ((s.dropWhile isPySpace).reverse.dropWhile isPySpace).reverse

/-- Python `str.rstrip(set)`: drop trailing characters belonging to `set`. -/
def pyRstripSet (s : List Char) (set : List Char) : List Char :=
  (s.reverse.dropWhile (fun c => set.contains c)).reverse

/-- Accumulator loop for `str.split()` (split on whitespace runs, no empty
tokens). -/
def splitWSAux : List Char → List Char → List (List Char)
  | [], acc => if acc.isEmpty then [] else [acc.reverse]
  | c :: cs, acc =>
    if isPySpace c then
      if acc.isEmpty then splitWSAux cs [] else acc.reverse :: splitWSAux cs []
    else splitWSAux cs (c :: acc)

/-- Python `str.split()` with no argument. -/
def splitWS (s : List Char) : List (List Char) := splitWSAux s []

/-- Accumulator loop for `str.split(sep)` with a one-character separator. -/
def splitOnCharAux (sep : Char) : List Char → List Char → List (List Char)
  | [], acc => [acc.reverse]
  | c :: cs, acc =>
    if c = sep then acc.reverse :: splitOnCharAux sep cs []
    else splitOnCharAux sep cs (c :: acc)

/-- Python `str.split(sep)` for a one-character separator (note
`"".split(sep) == [""]`). -/
def splitOnChar (sep : Char) (s : List Char) : List (List Char) :=
  splitOnCharAux sep s []

/-- Scan for the first `'='`, accumulating the prefix reversed. -/
def splitFirstEqAux (acc : List Char) : List Char → Option (List Char × List Char)
  | [] => none
  | c :: cs => if c = '=' then some (acc.reverse, cs) else splitFirstEqAux (c :: acc) cs

/-- Python `str.split('=', 1)` when `'='` occurs: the part before the first
`'='` and the rest; `none` when the string has no `'='`. -/
def splitFirstEq (s : List Char) : Option (List Char × List Char) :=
  splitFirstEqAux [] s

/-- Python substring test `needle in hay`. -/
def containsSub (needle : List Char) : List Char → Bool
  | [] => needle.isEmpty
  | c :: cs => needle.isPrefixOf (c :: cs) || containsSub needle cs

/-- Python `str.upper()` (ASCII fragment). -/
def pyUpper (s : List Char) : List Char := s.map Char.toUpper

/-- Python `str.endswith(suffix)`. -/
def pyEndsWith (s suffix : List Char) : Bool := suffix.isSuffixOf s

/-- Fuel-indexed loop for `str.replace(old, new)`: replace non-overlapping
occurrences left to right.  All call sites use a non-empty `old`, so fuel
`s.length` always suffices (each step consumes at least one character). -/
def pyReplaceAux (old rep : List Char) : ℕ → List Char → List Char
  | 0, s => s
  | fuel + 1, s =>
    match s with
    | [] => []
    | c :: cs =>
      if !old.isEmpty && old.isPrefixOf s then
        rep ++ pyReplaceAux old rep fuel (s.drop old.length)
      else c :: pyReplaceAux old rep fuel cs

/-- Python `str.replace(old, new)` (with non-empty `old`). -/
def pyReplace (s old rep : List Char) : List Char :=
  pyReplaceAux old rep s.length s

/-- Python `s[:n]` on strings, via the character list. -/
def strTake (s : String) (n : ℕ) : String := String.mk (s.toList.take n)

/-! ## Numeric literal parsing -/

/-- Value of a digit string (most significant first). -/
def digitsToNat (ds : List Char) : ℕ :=
  ds.foldl (fun a c => 10 * a + (c.toNat - '0'.toNat)) 0

/-- Exact rational value of the decimal literal `ipart.fpart`. -/
def decToRat (ipart fpart : List Char) : ℚ :=
  (digitsToNat ipart : ℚ) + (digitsToNat fpart : ℚ) / (10 : ℚ) ^ fpart.length

/-- Python `float(s)` restricted to plain decimal literals with an optional
sign (`12`, `3.5`, `.5`, `+1.`, `-2`); other inputs give `none`, modelling
the `ValueError`.  Exponent/`inf`/`nan` forms are never produced by the PMIC
output and are not modelled. -/
def pyFloat (s : List Char) : Option ℚ :=
  let t := pyStrip s
  let signed : ℚ × List Char :=
    match t with
    | '+' :: r => (1, r)
    | '-' :: r => (-1, r)
    | r => (1, r)
  let d1 := signed.2.takeWhile Char.isDigit
  let r1 := signed.2.dropWhile Char.isDigit
  match r1 with
  | [] => if d1.isEmpty then none else some (signed.1 * (digitsToNat d1 : ℚ))
  | '.' :: r2 =>
    let d2 := r2.takeWhile Char.isDigit
    let r3 := r2.dropWhile Char.isDigit
    if r3.isEmpty && !(d1.isEmpty && d2.isEmpty) then
      some (signed.1 * decToRat d1 d2)
    else none
  | _ => none

/-- Hexadecimal digit test for `int(s, 16)`. -/
def isHexDigit (c : Char) : Bool :=
  c.isDigit || ('a' ≤ c && c ≤ 'f') || ('A' ≤ c && c ≤ 'F')

/-- Value of a hexadecimal digit. -/
def hexVal (c : Char) : ℕ :=
  if c.isDigit then c.toNat - '0'.toNat
  else if 'a' ≤ c then c.toNat - 'a'.toNat + 10
  else c.toNat - 'A'.toNat + 10

/-- Python `int(s, 16)`: surrounding whitespace and an optional `0x`/`0X`
marker, then hex digits; `none` models the `ValueError`.  (A sign or `_`
grouping is also accepted by Python but never printed by `vcgencmd
get_throttled`, and is not modelled.) -/
def pyIntHex (s : List Char) : Option ℕ :=
  let t := pyStrip s
  let t1 := if ['0', 'x'].isPrefixOf t || ['0', 'X'].isPrefixOf t then t.drop 2 else t
  if !t1.isEmpty && t1.all isHexDigit then
    some (t1.foldl (fun a c => 16 * a + hexVal c) 0)
  else none

/-! ## String-keyed dictionaries (insertion order, unique keys) -/

/-- Association list standing for a Python `dict[str, float]`. -/
abbrev Dict := List (String × ℚ)

/-- Python `d[k] = v`: update in place if present, else append. -/
def dictSet : Dict → String → ℚ → Dict
  | [], k, v => [(k, v)]
  | p :: t, k, v => if p.1 = k then (k, v) :: t else p :: dictSet t k v

/-- Python `d.get(k)` / `k in d`: first entry with the key. -/
def dictGet : Dict → String → Option ℚ
  | [], _ => none
  | p :: t, k => if p.1 = k then some p.2 else dictGet t k

/-- Python `d.get(k, dflt)`. -/
def dictGetD (m : Dict) (k : String) (dflt : ℚ) : ℚ := (dictGet m k).getD dflt

/-- Python `sum(d.values())`. -/
def dictValuesSum (m : Dict) : ℚ := (m.map Prod.snd).sum

/-- Python `list(d.keys())`. -/
def dictKeys (m : Dict) : List String := m.map Prod.fst

/-! ## Tolerant token-by-token PMIC reader (`test_power.py`, `read_pmic_power`)

The state is the pair `(voltages, currents)` of dicts built up token by
token (lines 33-61 of `test_power.py`). -/

/-- The unit characters stripped from a value: `value.rstrip('VAmWvw')`. -/
def stripUnits : List Char := ['V', 'A', 'm', 'W', 'v', 'w']

/-- Process one whitespace-separated token (`for part in parts:` body,
test_power.py lines 36-61).  Tokens without `'='`, tokens whose value does
not parse as a float (the caught `ValueError`), and tokens classified as
neither voltage nor current leave the state unchanged. -/
def procPart (st : Dict × Dict) (part : List Char) : Dict × Dict :=
  match splitFirstEq part with
  | none => st
  | some kv =>
    let key := kv.1
    let value := kv.2
    match pyFloat (pyRstripSet value stripUnits) with
    | none => st
    | some v0 =>
      let v :=
        if pyEndsWith value ['m', 'V'] then v0 / 1000
        else if pyEndsWith value ['m', 'A'] then v0 / 1000
        else v0
      if containsSub ['_', 'V'] key || containsSub ['V', 'O', 'L', 'T'] (pyUpper key) then
        let rail := String.mk (pyReplace (pyReplace key ['_', 'V'] []) ['V', 'O', 'L', 'T'] [])
        (dictSet st.1 rail v, st.2)
      else if containsSub ['_', 'I'] key || containsSub ['_', 'A'] key
              || containsSub ['C', 'U', 'R', 'R'] (pyUpper key) then
        let rail := String.mk
          (pyReplace (pyReplace (pyReplace key ['_', 'I'] []) ['_', 'A'] []) ['C', 'U', 'R', 'R'] [])
        (st.1, dictSet st.2 rail v)
      else st

/-- Fold `procPart` over a token list starting from empty dicts. -/
def readTokens (toks : List (List Char)) : Dict × Dict :=
  toks.foldl procPart ([], [])

/-- Tokenisation of the PMIC stdout: `pmic_output = stdout.strip()`, then
`for line in pmic_output.split('\n'): parts = line.split()` (test_power.py
lines 16 and 33-34). -/
def pmicTokens (stdout : String) : List (List Char) :=
  (splitOnChar '\n' (pyStrip stdout.toList)).flatMap splitWS

/-- The `(voltages, currents)` dicts accumulated by `read_pmic_power`. -/
def readPmicMaps (stdout : String) : Dict × Dict :=
  readTokens (pmicTokens stdout)

/-- Union of rail names, `set(list(voltages.keys()) + list(currents.keys()))`
(test_power.py line 71).  Python iterates it in sorted order, which does not
affect the accumulated total, so the sort is omitted. -/
def pmicAllRails (m : Dict × Dict) : List String :=
  (dictKeys m.1 ++ dictKeys m.2).eraseDups

/-- `total_power` accumulated over all rails with
`voltages.get(rail, 0.0) * currents.get(rail, 0.0)` (test_power.py
lines 73-77). -/
def readPmicTotal (stdout : String) : ℚ :=
  let m := readPmicMaps stdout
  ((pmicAllRails m).map (fun r => dictGetD m.1 r 0 * dictGetD m.2 r 0)).sum

/-- The value returned by `read_pmic_power` in the success case:
`(total_power_w, voltages, currents)`. -/
def read_pmic_power (stdout : String) : ℚ × Dict × Dict :=
  (readPmicTotal stdout, (readPmicMaps stdout).1, (readPmicMaps stdout).2)

/-- A token the tolerant reader skips as garbled: no `'='`, or a value that
`float()` rejects after stripping units. -/
def tokenGarbled (t : List Char) : Bool :=
  match splitFirstEq t with
  | none => true
  | some kv => (pyFloat (pyRstripSet kv.2 stripUnits)).isNone

/-! ## Strict regex PMIC parsing (`rpi_support.py`, lines 148-153)

`re.findall` of `([\w\d_]+)_A\s+current\(\d+\)=([0-9]*\.?[0-9]+)A` (and the
`_V volt(...)=...V` analogue), implemented as a leftmost-match scanner with
the backtracking behaviour of the concrete pattern worked out:

* the group `([\w\d_]+)` followed by the literal `_A` and `\s` must cover a
  maximal word-character run ending in `_A` (any earlier placement of `_A`
  puts a word character where `\s` is required);
* `[0-9]*\.?[0-9]+` followed by a unit letter matches either a maximal digit
  run, or a maximal digit run, a dot and a non-empty maximal digit run (any
  backtracking alternative leaves a digit or a dot where the unit letter is
  required). -/

/-- Match `[0-9]*\.?[0-9]+` followed by the rest, returning the exact value
of the matched literal and the remainder. -/
def matchNum (s : List Char) : Option (ℚ × List Char) :=
  let d1 := s.takeWhile Char.isDigit
  let r1 := s.dropWhile Char.isDigit
  match r1 with
  | '.' :: r2 =>
    let d2 := r2.takeWhile Char.isDigit
    let r3 := r2.dropWhile Char.isDigit
    if d2.isEmpty then none else some (decToRat d1 d2, r3)
  | _ => if d1.isEmpty then none else some ((digitsToNat d1 : ℚ), r1)

/-- Try to match the whole rail pattern at the current position: a rail name
ending in `_` + `sfx`, whitespace, `kw` (keyword with its opening paren),
digits, `)=`, a numeric literal, and the unit letter.  On success returns
the two captured groups and the remainder after the match. -/
def matchRailAt (sfx : Char) (kw : List Char) (unit : Char) (s : List Char) :
    Option ((String × ℚ) × List Char) :=
  let w := s.takeWhile isWordChar
  let rest := s.dropWhile isWordChar
  match w.reverse with
  | a :: b :: nameRev =>
    if a = sfx && b = '_' && !nameRev.isEmpty then
      let ws := rest.takeWhile isPySpace
      let rest1 := rest.dropWhile isPySpace
      if !ws.isEmpty && kw.isPrefixOf rest1 then
        let rest2 := rest1.drop kw.length
        let digits := rest2.takeWhile Char.isDigit
        let rest3 := rest2.dropWhile Char.isDigit
        if !digits.isEmpty && rest3.take 2 = [')', '='] then
          match matchNum (rest3.drop 2) with
          | some vr =>
            match vr.2 with
            | u :: rest5 => if u = unit then some ((String.mk nameRev.reverse, vr.1), rest5) else none
            | [] => none
          | none => none
        else none
      else none
    else none
  | _ => none

/-- Fuel-indexed `re.findall` scan: try a match at each position, emitting
non-overlapping leftmost matches.  A successful match consumes at least one
character, so fuel `s.length` suffices. -/
def findAllAux (sfx : Char) (kw : List Char) (unit : Char) : ℕ → List Char → List (String × ℚ)
  | 0, _ => []
  | fuel + 1, s =>
    match s with
    | [] => []
    | _ :: cs =>
      match matchRailAt sfx kw unit s with
      | some pr => pr.1 :: findAllAux sfx kw unit fuel pr.2
      | none => findAllAux sfx kw unit fuel cs

/-- `re.findall(pattern, text)` for the two rail patterns. -/
def findAll (sfx : Char) (kw : List Char) (unit : Char) (text : String) : List (String × ℚ) :=
  findAllAux sfx kw unit text.toList.length text.toList

/-- `current_pattern.findall(text_adc)` → dict (rpi_support.py line 150). -/
def strictCurrents (text : String) : Dict :=
  (findAll 'A' ['c', 'u', 'r', 'r', 'e', 'n', 't', '('] 'A' text).foldl
    (fun m p => dictSet m p.1 p.2) []

/-- `voltage_pattern.findall(text_adc)` → dict (rpi_support.py line 151). -/
def strictVoltages (text : String) : Dict :=
  (findAll 'V' ['v', 'o', 'l', 't', '('] 'V' text).foldl
    (fun m p => dictSet m p.1 p.2) []

/-- The nested dict comprehension pairing each current rail with the
same-named voltage rail (rpi_support.py line 152), generalised over the two
dicts: for each current entry in order, emit `(name, curr * volt)` when a
same-named voltage entry exists.  Voltage keys are unique, so each current
entry matches at most one voltage entry. -/
def railPairs (curr volt : Dict) : Dict :=
  match curr with
  | [] => []
  | p :: t =>
    match dictGet volt p.1 with
    | some w => (p.1, p.2 * w) :: railPairs t volt
    | none => railPairs t volt

/-- `power_rails_w` (rpi_support.py line 152). -/
def strictPowerRails (text : String) : Dict :=
  railPairs (strictCurrents text) (strictVoltages text)

/-- `power_total_w = sum(power_rails_w.values())` (rpi_support.py line 153). -/
def strictPowerTotal (text : String) : ℚ :=
  dictValuesSum (strictPowerRails text)

/-! ## The snapshot (`SystemStats` dataclass, rpi_support.py lines 24-57)

The five alarm fields are stored by the code as the raw bit-test integers
`val & mask` (despite the `bool` annotations); they are typed `ℕ` here and
truth-tested as `≠ 0`, matching Python truthiness. -/

/-- The `SystemStats` dataclass with its field defaults. -/
structure SystemStats where
  cpu_freq_ghz : ℚ := 0
  cpu_percent : ℚ := 0
  cpu_temp_c : ℚ := 0
  ram_total_gb : ℚ := 0
  ram_used_gb : ℚ := 0
  ram_percent : ℚ := 0
  disk_total_gb : ℚ := 0
  disk_used_gb : ℚ := 0
  disk_percent : ℚ := 0
  ip_list : List (String × String) := []
  ip_internet : String := ""
  download_speed_mbps : ℚ := 0
  upload_speed_mbps : ℚ := 0
  power_total_w : ℚ := 0
  power_rails_w : Dict := []
  current_rails_a : Dict := []
  voltage_rails_v : Dict := []
  ina219_voltage_v : ℚ := 0
  ina219_current_a : ℚ := 0
  ina219_power_w : ℚ := 0
  under_voltage : ℕ := 0
  throttling_heat : ℕ := 0
  throttling_voltage : ℕ := 0
  under_voltage_trg : ℕ := 0
  throttling_heat_trg : ℕ := 0
deriving DecidableEq, Repr

/-! ## Sampler pieces (`get_system_stat`, rpi_support.py lines 89-177) -/

/-- The network rate computation (rpi_support.py lines 140-141):
`((new_bytes - old_bytes) / duration) * 8.0 / 1_000_000.0`.  This value is
only computed for `duration ≠ 0` (a zero duration raises
`ZeroDivisionError`, modelled at the call site in `get_system_stat`). -/
def rateMbps (oldBytes newBytes : ℤ) (duration : ℚ) : ℚ :=
  (((newBytes : ℚ) - (oldBytes : ℚ)) / duration) * 8 / 1000000

/-- The connectionless routing probe (rpi_support.py lines 125-136).  When
the interface list is non-empty the code runs
`try: s = socket.socket(...); s.connect(...); ip = s.getsockname()[0]`
`except Exception: ip = "No Internet"` `finally: s.close()`.
`socketOk` is whether `socket.socket` returns, `connectOk` whether
`connect`/`getsockname` succeed.  When `socket.socket` itself raises, the
`except` arm stores the sentinel but the `finally` clause then evaluates
`s.close()` with the local `s` never bound, raising `NameError` out of the
sampler. -/
def probeIpInternet (ipNumb : ℕ) (socketOk connectOk : Bool) (localAddr : String) :
    Except String String :=
  if ipNumb = 0 then .ok "No Internet"
  else if socketOk = false then .error "NameError"
  else if connectOk = false then .ok "No Internet"
  else .ok localAddr

/-- `int(raw_result.stdout.strip().split("=")[1], 16)` (rpi_support.py
line 169).  `runResult = none` models `subprocess.run` itself raising
(`vcgencmd` not installed); a missing `=` raises `IndexError`; a non-hex
field raises `ValueError`.  None of these raises are caught inside
`get_system_stat`. -/
def parseThrottled (runResult : Option String) : Except String ℕ :=
  match runResult with
  | none => .error "FileNotFoundError"
  | some out =>
    match (splitOnChar '=' (pyStrip out.toList)).get? 1 with
    | none => .error "IndexError"
    | some v =>
      match pyIntHex v with
      | none => .error "ValueError"
      | some n => .ok n

/-- The alarm decode (rpi_support.py lines 170-174): the five fields receive
the raw values `val & 0x1`, `val & 0x2`, `val & 0x4`, `val & 0x10000`,
`val & 0x20000`. -/
def decodeThrottled (val : ℕ) (s : SystemStats) : SystemStats :=
  { s with
    under_voltage := val &&& 0x1
    throttling_heat := val &&& 0x2
    throttling_voltage := val &&& 0x4
    under_voltage_trg := val &&& 0x10000
    throttling_heat_trg := val &&& 0x20000 }

/-- The INA219 section (rpi_support.py lines 155-165): three sequential
sensor reads inside one `try`, assigning `ina219_voltage_v`, then
`ina219_current_a = getCurrent_mA() / 1000.0`, then `ina219_power_w` and
`power_total_w += ina219_power_w`; any raise abandons the remaining
assignments (the exception is caught and only logged).  Nothing in the
function unsets the sensor handle. -/
def ina219Read (configured : Bool) (vRes cRes pRes : Except String ℚ)
    (s : SystemStats) : SystemStats :=
  if configured then
    match vRes with
    | .error _ => s
    | .ok v =>
      let s1 := { s with ina219_voltage_v := v }
      match cRes with
      | .error _ => s1
      | .ok c =>
        let s2 := { s1 with ina219_current_a := c / 1000 }
        match pRes with
        | .error _ => s2
        | .ok p => { s2 with ina219_power_w := p, power_total_w := s2.power_total_w + p }
  else s

/-- The module-level mutable sampler state: `old_tick`, `old_network_vl`
(rpi_support.py lines 87-88) and the `ina219_sensor` handle (line 67,
assigned once at startup and never reassigned). -/
structure SamplerState where
  oldTick : ℚ
  oldRecv : ℤ
  oldSent : ℤ
  inaConfigured : Bool
deriving DecidableEq, Repr

/-- Per-tick outcomes of the external collaborators consumed by
`get_system_stat`.  `ipList` stands for the already-enumerated-and-filtered
interface list produced by the `ip -4 -o addr show` call and the loopback /
link-local filter of lines 117-124 (its `.error` case is
`subprocess.check_output` raising).  `adcRun` is `.error` when
`subprocess.run(["vcgencmd", "pmic_read_adc"], ...)` itself raises,
`.ok none` for a non-zero return code, `.ok (some text)` for success.
`throttleRun` is `none` when `subprocess.run(["vcgencmd", "get_throttled"])`
itself raises, otherwise the stdout text.  `now` and `now2` are the two
`time.perf_counter()` readings of lines 137-138. -/
structure SampleEnv where
  cpuFreqMhz : ℚ
  cpuPercent : ℚ
  cpuTempMilli : Option ℤ
  ramTotalB : ℚ
  ramUsedB : ℚ
  ramPercent : ℚ
  diskTotalB : ℚ
  diskUsedB : ℚ
  diskPercent : ℚ
  ipList : Except String (List (String × String))
  socketOk : Bool
  connectOk : Bool
  localAddr : String
  now : ℚ
  now2 : ℚ
  newRecv : ℤ
  newSent : ℤ
  adcRun : Except String (Option String)
  inaVolt : Except String ℚ
  inaCurrMilli : Except String ℚ
  inaPower : Except String ℚ
  throttleRun : Option String
deriving DecidableEq, Repr

/-- Bytes per gigabyte, `1024 * 1024 * 1024`. -/
def GB : ℚ := 1024 * 1024 * 1024

/-- `get_system_stat` (rpi_support.py lines 89-177).  Returns the updated
module-level state together with either the assembled snapshot or the
uncaught exception.  The state result reflects which global updates had
already happened when an exception was raised: `old_tick` is written at
line 138 before the rate division of line 140, and `old_network_vl` at
line 142 after it. -/
def get_system_stat (st : SamplerState) (env : SampleEnv) :
    SamplerState × Except String SystemStats :=
  let s0 : SystemStats :=
    { cpu_freq_ghz := env.cpuFreqMhz / 1000
      cpu_percent := env.cpuPercent
      cpu_temp_c :=
        match env.cpuTempMilli with
        | some t => (t : ℚ) / 1000
        | none => 0
      ram_total_gb := env.ramTotalB / GB
      ram_used_gb := env.ramUsedB / GB
      ram_percent := env.ramPercent
      disk_total_gb := env.diskTotalB / GB
      disk_used_gb := env.diskUsedB / GB
      disk_percent := env.diskPercent }
  match env.ipList with
  | .error e => (st, .error e)
  | .ok ips =>
    let s1 := { s0 with ip_list := ips }
    match probeIpInternet ips.length env.socketOk env.connectOk env.localAddr with
    | .error e => (st, .error e)
    | .ok inet =>
      let s2 := { s1 with ip_internet := inet }
      let duration := env.now - st.oldTick
      let st1 := { st with oldTick := env.now2 }
      if duration = 0 then (st1, .error "ZeroDivisionError")
      else
        let s3 := { s2 with
          download_speed_mbps := rateMbps st.oldRecv env.newRecv duration
          upload_speed_mbps := rateMbps st.oldSent env.newSent duration }
        let st2 := { st1 with oldRecv := env.newRecv, oldSent := env.newSent }
        match env.adcRun with
        | .error e => (st2, .error e)
        | .ok adcOut =>
          let s4 :=
            match adcOut with
            | none => s3
            | some text =>
              { s3 with
                current_rails_a := strictCurrents text
                voltage_rails_v := strictVoltages text
                power_rails_w := strictPowerRails text
                power_total_w := strictPowerTotal text }
          let s5 := ina219Read st.inaConfigured env.inaVolt env.inaCurrMilli env.inaPower s4
          match parseThrottled env.throttleRun with
          | .error e => (st2, .error e)
          | .ok val => (st2, .ok (decodeThrottled val s5))

/-! ## Carousel and scheduler loop (rpi_support.py lines 292-461) -/

/-- The network-slot carousel of the render block (rpi_support.py
lines 382-395): pick the label for the current tick and advance the rotation
index when the show-time has elapsed (`expired` is
`(time.perf_counter() - ip_show_time) > IP_SHOW_TIME`).  An index at or past
the list length selects the synthetic internet slot; the list itself is only
indexed under the `ip_index < ip_numb` guard.  With an empty list the stored
index is left untouched.  The interface name is truncated to four characters
(`ip_name[:4]`). -/
def carouselStep (ips : List (String × String)) (ipIndex : ℕ) (expired : Bool)
    (inet : String) : (String × String) × ℕ :=
  let n := ips.length
  let st :=
    if n = 0 then (("", "No connection"), ipIndex)
    else
      ((if h : ipIndex ≥ n then ("", inet) else ips.get ⟨ipIndex, by omega⟩),
       if expired then (ipIndex + 1) % (n + 1) else ipIndex)
  ((strTake (st.1).1 4, (st.1).2), st.2)

/-- Outcome of the `if disp:` render attempt (rpi_support.py lines 303-459):
a frame was displayed, or the attempt raised `NameError` (first tick with
`sysStats` never assigned), an `OSError`-family display failure, or some
other exception. -/
inductive RenderOutcome where
  | frame (label : String × String)
  | nameError
  | osError
  | otherError
deriving DecidableEq, Repr

/-- The render attempt (rpi_support.py lines 303-459).  `stats = none` means
the module global `sysStats` was never assigned: its first use (line 314)
then raises `NameError` before the carousel code runs.  Otherwise the
carousel label and index update of lines 382-395 happen, and then
`disp.display(canvas)` either succeeds or raises (`displayErr`: `none` ok,
`some true` the `OSError`/`DeviceNotFoundError` family, `some false` any
other exception).  The index update precedes the display call, so it
survives a display failure. -/
def renderBlock (stats : Option SystemStats) (ipIndex : ℕ) (expired : Bool)
    (displayErr : Option Bool) : ℕ × RenderOutcome :=
  match stats with
  | none => (ipIndex, .nameError)
  | some s =>
    let lr := carouselStep s.ip_list ipIndex expired s.ip_internet
    match displayErr with
    | some true => (lr.2, .osError)
    | some false => (lr.2, .otherError)
    | none => (lr.2, .frame lr.1)

/-- The scheduler-visible mutable state: the display handle (present or
absent), the last successfully assigned `sysStats` (never assigned = `none`),
the sampler globals, and the carousel index. -/
structure LoopState where
  disp : Bool
  lastStats : Option SystemStats
  sampler : SamplerState
  ipIndex : ℕ
deriving DecidableEq, Repr

/-- Per-tick external outcomes for one iteration of the `while running:`
loop: whether `init_display()` yields a device when attempted, the sampling
environment, whether the IP show-time elapsed, and the display call outcome. -/
structure TickEnv where
  initOk : Bool
  sample : SampleEnv
  ipExpired : Bool
  displayErr : Option Bool
deriving DecidableEq, Repr

/-- Observable events of one loop iteration. -/
structure TickRes where
  displayed : Bool
  sampleErrorLogged : Bool
  renderErrorLogged : Bool
  shownFrame : Option (String × String)
  sleepSeconds : ℚ
deriving DecidableEq, Repr

/-- One iteration of the main loop (rpi_support.py lines 292-461):
re-acquire the display if absent; `try: sysStats = get_system_stat()`
`except: print("Get stats error")`; if a display is present run the render
attempt (which on any non-display exception only logs, and on a display
error drops the handle); finally `sleep(DISP_REF_INTERVAL)` — the sleep
duration is the same constant on every path. -/
def mainTick (st : LoopState) (env : TickEnv) : LoopState × TickRes :=
  let disp1 := if st.disp then true else env.initOk
  let g := get_system_stat st.sampler env.sample
  let stats2 := match g.2 with | .ok s => some s | .error _ => st.lastStats
  let sErr := match g.2 with | .ok _ => false | .error _ => true
  if disp1 then
    let r := renderBlock stats2 st.ipIndex env.ipExpired env.displayErr
    match r.2 with
    | .frame lbl =>
      (⟨true, stats2, g.1, r.1⟩,
       ⟨true, sErr, false, some lbl, DISP_REF_INTERVAL⟩)
    | .osError =>
      (⟨false, stats2, g.1, r.1⟩,
       ⟨false, sErr, true, none, DISP_REF_INTERVAL⟩)
    | .nameError =>
      (⟨true, stats2, g.1, r.1⟩,
       ⟨false, sErr, true, none, DISP_REF_INTERVAL⟩)
    | .otherError =>
      (⟨true, stats2, g.1, r.1⟩,
       ⟨false, sErr, true, none, DISP_REF_INTERVAL⟩)
  else
    (⟨false, stats2, g.1, st.ipIndex⟩,
     ⟨false, sErr, false, none, DISP_REF_INTERVAL⟩)

/-! ## Concrete inputs for the evaluations below -/

/-- A two-rail `pmic_read_adc` output in the strict unit-suffixed format
matched by the rpi_support.py regexes. -/
def strictSample : String := " A_A current(0)=2.0A\n A_V volt(0)=3.0V"

/-- Initial sampler globals: first reading taken at process start. -/
def sampler0 : SamplerState := ⟨0, 0, 0, false⟩

/-- A nominal environment for one sampling pass: one interface, a working
probe, one second elapsed, 1 MB received and 0.5 MB sent since the previous
reading, ADC unsupported, no INA219, healthy throttle status. -/
def envBase : SampleEnv :=
  { cpuFreqMhz := 1500
    cpuPercent := 10
    cpuTempMilli := some 45000
    ramTotalB := 4294967296
    ramUsedB := 1073741824
    ramPercent := 25
    diskTotalB := 0
    diskUsedB := 0
    diskPercent := 0
    ipList := .ok [("eth0", "192.168.1.2")]
    socketOk := true
    connectOk := true
    localAddr := "192.168.1.2"
    now := 1
    now2 := 1
    newRecv := 1000000
    newSent := 500000
    adcRun := .ok none
    inaVolt := .error "OSError"
    inaCurrMilli := .error "OSError"
    inaPower := .error "OSError"
    throttleRun := some "throttled=0x0" }

/-- Same pass but `vcgencmd get_throttled` prints nothing, so the index
`[1]` into the split output raises `IndexError` out of the sampler. -/
def envThrottleFail : SampleEnv := { envBase with throttleRun := some "" }

/-- Same pass but both `perf_counter` readings coincide with the stored
`old_tick`, making the rate duration zero. -/
def envZeroDur : SampleEnv := { envBase with ipList := .ok [], now := 0, now2 := 0 }

/-- Same pass but `socket.socket(...)` itself raises. -/
def envSockFail : SampleEnv := { envBase with socketOk := false }

/-- Sampler globals holding an earlier, larger counter reading. -/
def samplerHigh : SamplerState := ⟨0, 1000000, 500000, false⟩

/-- The nominal pass observed after a counter reset: both cumulative
counters are below the stored previous readings. -/
def envDrop : SampleEnv := { envBase with newRecv := 500000, newSent := 250000 }

/-- Loop state of a steady tick: display present and a snapshot already
assigned on an earlier tick. -/
def loopStale : LoopState := ⟨true, some {}, sampler0, 0⟩

/-- Tick in state `loopStale` whose sampling pass fails in the throttle
parse; the display call itself would succeed. -/
def tickEnvFail : TickEnv := ⟨true, envThrottleFail, false, none⟩

/-- Loop state with the device session Absent and no snapshot yet. -/
def loopAbsent : LoopState := ⟨false, none, sampler0, 0⟩

/-- Tick in state `loopAbsent` where re-acquisition fails again. -/
def tickEnvAbsent : TickEnv := ⟨false, envBase, false, none⟩

/-! ## Helper lemmas -/

/-- A rail present in both dicts appears in `railPairs` with the product. -/
theorem dictGet_railPairs_some (volt : Dict) :
    ∀ (curr : Dict) (n : String) (c v : ℚ),
      dictGet curr n = some c → dictGet volt n = some v →
      dictGet (railPairs curr volt) n = some (c * v) := by
  intro curr
  induction curr with
  | nil => intro n c v hc _; simp [dictGet] at hc
  | cons p t ih =>
    intro n c v hc hv
    by_cases hk : p.1 = n
    · rw [dictGet, if_pos hk] at hc
      injection hc with hc
      rw [railPairs, hk, hv]
      simp [dictGet, hc]
    · rw [dictGet, if_neg hk] at hc
      rw [railPairs]
      cases hw : dictGet volt p.1 with
      | none => exact ih n c v hc hv
      | some w =>
        rw [show dictGet ((p.1, p.2 * w) :: railPairs t volt) n =
              dictGet (railPairs t volt) n by simp [dictGet, hk]]
        exact ih n c v hc hv

/-- A rail with no current entry does not appear in `railPairs`. -/
theorem dictGet_railPairs_none_left (volt : Dict) :
    ∀ (curr : Dict) (n : String), dictGet curr n = none →
      dictGet (railPairs curr volt) n = none := by
  intro curr
  induction curr with
  | nil => intro n _; rfl
  | cons p t ih =>
    intro n hc
    by_cases hk : p.1 = n
    · rw [dictGet, if_pos hk] at hc; exact absurd hc (by simp)
    · rw [dictGet, if_neg hk] at hc
      rw [railPairs]
      cases hw : dictGet volt p.1 with
      | none => exact ih n hc
      | some w =>
        rw [show dictGet ((p.1, p.2 * w) :: railPairs t volt) n =
              dictGet (railPairs t volt) n by simp [dictGet, hk]]
        exact ih n hc

/-- A rail with no voltage entry does not appear in `railPairs`. -/
theorem dictGet_railPairs_none_right (volt : Dict) :
    ∀ (curr : Dict) (n : String), dictGet volt n = none →
      dictGet (railPairs curr volt) n = none := by
  intro curr
  induction curr with
  | nil => intro n _; rfl
  | cons p t ih =>
    intro n hv
    rw [railPairs]
    by_cases hk : p.1 = n
    · rw [hk, hv]
      exact ih n hv
    · cases hw : dictGet volt p.1 with
      | none => exact ih n hv
      | some w =>
        rw [show dictGet ((p.1, p.2 * w) :: railPairs t volt) n =
              dictGet (railPairs t volt) n by simp [dictGet, hk]]
        exact ih n hv

/-- The summed `railPairs` values, written as a sum over the current dict
with missing voltages contributing zero. -/
theorem dictValuesSum_railPairs (volt : Dict) :
    ∀ (curr : Dict),
      dictValuesSum (railPairs curr volt) =
        (curr.map (fun p =>
          match dictGet volt p.1 with
          | some w => p.2 * w
          | none => 0)).sum := by
  intro curr
  induction curr with
  | nil => rfl
  | cons p t ih =>
    rw [railPairs, List.map_cons, List.sum_cons]
    cases hw : dictGet volt p.1 with
    | none => rw [ih]; simp
    | some w =>
      rw [show dictValuesSum ((p.1, p.2 * w) :: railPairs t volt) =
            p.2 * w + dictValuesSum (railPairs t volt) by
          simp [dictValuesSum]]
      rw [ih]

/-- Dropping list elements whose mapped value is zero does not change the
sum. -/
theorem sum_map_filter_of_zero (f : String → ℚ) (p : String → Bool) :
    ∀ (L : List String), (∀ r ∈ L, p r = false → f r = 0) →
      (L.map f).sum = ((L.filter p).map f).sum := by
  intro L
  induction L with
  | nil => intro _; rfl
  | cons a t ih =>
    intro h
    rw [List.map_cons, List.sum_cons, List.filter_cons]
    cases hp : p a with
    | true =>
      simp only [if_pos]
      rw [List.map_cons, List.sum_cons, ih (fun r hr => h r (List.mem_cons_of_mem a hr))]
    | false =>
      simp only [Bool.false_eq_true, if_false]
      rw [h a (List.mem_cons_self a t) hp, zero_add,
        ih (fun r hr => h r (List.mem_cons_of_mem a hr))]

/-- A token the tolerant reader treats as garbled leaves the parse state
unchanged. -/
theorem procPart_garbled (st : Dict × Dict) (t : List Char)
    (h : tokenGarbled t = true) : procPart st t = st := by
  rw [tokenGarbled] at h
  rw [procPart]
  cases hs : splitFirstEq t with
  | none => rfl
  | some kv =>
    rw [hs] at h
    simp only at h ⊢
    cases hf : pyFloat (pyRstripSet kv.2 stripUnits) with
    | none => rfl
    | some v => rw [hf] at h; simp [Option.isNone] at h

/-- Bit-test form of masking with a power of two. -/
theorem and_pow_two_ne_zero (n k : ℕ) : (n &&& 2 ^ k ≠ 0) ↔ n.testBit k := by
  rw [Nat.and_two_pow]
  cases h : n.testBit k <;> simp [h]

/-! ## Claim C1 — negative byte-counter deltas -/

/-- C1: counterexample.  The claim says a decreasing counter yields rate 0;
the code's rate computation (lines 140-141) applies no clamp: a receive
counter falling from 1000000 to 500000 over one second yields -4 Mbps, and
the snapshot returned by the sampler carries that negative value. -/
theorem C1_counterexample :
    rateMbps 1000000 500000 1 = -4 ∧ rateMbps 1000000 500000 1 ≠ 0
    ∧ ((get_system_stat samplerHigh envDrop).2.toOption.map
        SystemStats.download_speed_mbps) = some (-4) := by
  refine ⟨by decide, by decide, by decide⟩

/-- C1 (amended): the sampler's rate computation clamps nothing.  Over a
positive duration a strictly decreasing byte counter produces a strictly
negative rate, and a non-decreasing counter a non-negative one. -/
theorem C1_rate_sign (oldB newB : ℤ) (d : ℚ) (hd : 0 < d) :
    (newB < oldB → rateMbps oldB newB d < 0)
    ∧ (oldB ≤ newB → 0 ≤ rateMbps oldB newB d) := by
  constructor
  · intro h
    have h1 : (newB : ℚ) < (oldB : ℚ) := by exact_mod_cast h
    have h2 : ((newB : ℚ) - oldB) / d < 0 := div_neg_of_neg_of_pos (by linarith) hd
    have h3 : ((newB : ℚ) - oldB) / d * 8 < 0 := by linarith
    have h4 : ((newB : ℚ) - oldB) / d * 8 / 1000000 < 0 :=
      div_neg_of_neg_of_pos h3 (by norm_num)
    exact h4
  · intro h
    have h1 : (oldB : ℚ) ≤ (newB : ℚ) := by exact_mod_cast h
    have h2 : 0 ≤ ((newB : ℚ) - oldB) / d := div_nonneg (by linarith) (le_of_lt hd)
    have h3 : 0 ≤ ((newB : ℚ) - oldB) / d * 8 := by linarith
    have h4 : 0 ≤ ((newB : ℚ) - oldB) / d * 8 / 1000000 := div_nonneg h3 (by norm_num)
    exact h4

/-- C1 witness: the amended statement applied at concrete counters. -/
theorem C1_rate_sign_witness :
    rateMbps 1000000 500000 1 < 0 ∧ 0 ≤ rateMbps 0 1000000 1 :=
  ⟨(C1_rate_sign 1000000 500000 1 (by decide)).1 (by decide),
   (C1_rate_sign 0 1000000 1 (by decide)).2 (by decide)⟩

/-! ## Claim C3 — sleep duration -/

/-- C3: counterexample.  The claim says the end-of-tick sleep is halved
while the device is Absent; with the display absent the code still sleeps
the full `DISP_REF_INTERVAL` (line 461 is unconditional). -/
theorem C3_counterexample :
    loopAbsent.disp = false
    ∧ (mainTick loopAbsent tickEnvAbsent).1.disp = false
    ∧ (mainTick loopAbsent tickEnvAbsent).2.sleepSeconds = DISP_REF_INTERVAL
    ∧ (mainTick loopAbsent tickEnvAbsent).2.sleepSeconds ≠ DISP_REF_INTERVAL / 2 := by
  refine ⟨rfl, by decide, by decide, by decide⟩

/-- C3 (amended): every iteration of the main loop sleeps exactly
`DISP_REF_INTERVAL`, whether the device session is Present or Absent. -/
theorem C3_sleep_constant (st : LoopState) (env : TickEnv) :
    (mainTick st env).2.sleepSeconds = DISP_REF_INTERVAL := by
  unfold mainTick
  dsimp only
  repeat' split
  all_goals rfl

/-! ## Claim C4 — carousel index bounds -/

/-- C4: counterexample.  With two interfaces the index advances to 2 (the
internet slot); if the list then shrinks to empty, the stored index stays 2
instead of being clamped below `0 + 1`. -/
theorem C4_counterexample :
    carouselStep [("eth0", "a"), ("wlan0", "b")] 1 true "inet" = (("wlan", "b"), 2)
    ∧ carouselStep [] 2 true "inet" = (("", "No connection"), 2)
    ∧ ¬((carouselStep [] 2 true "inet").2 < ([] : List (String × String)).length + 1) := by
  refine ⟨by decide, by decide, by decide⟩

/-- C4 (amended): the interface list itself is never indexed out of bounds —
an index at or past the list length renders the internet slot, and the list
is read only under the in-bounds guard.  The stored index is reduced modulo
`n + 1` only when the list is non-empty and the show-time elapsed; with an
empty list it is left unchanged (not clamped), so it can remain out of the
claimed range until a later advance. -/
theorem C4_carousel_guarded (ips : List (String × String)) (idx : ℕ) (expired : Bool)
    (inet : String) :
    (ips = [] → carouselStep ips idx expired inet = (("", "No connection"), idx))
    ∧ (ips ≠ [] → expired = true → (carouselStep ips idx expired inet).2 < ips.length + 1)
    ∧ (ips ≠ [] → expired = false → (carouselStep ips idx expired inet).2 = idx)
    ∧ (∀ h : idx < ips.length,
        (carouselStep ips idx expired inet).1 =
          (strTake (ips.get ⟨idx, h⟩).1 4, (ips.get ⟨idx, h⟩).2))
    ∧ (ips ≠ [] → ips.length ≤ idx → (carouselStep ips idx expired inet).1 = ("", inet)) := by
  have hlen : ips ≠ [] → ips.length ≠ 0 := fun hne h0 => hne (List.length_eq_zero.mp h0)
  refine ⟨?_, ?_, ?_, ?_, ?_⟩
  · intro h; subst h; rfl
  · intro hne hexp
    unfold carouselStep
    simp only [if_neg (hlen hne), hexp, if_pos]
    exact Nat.mod_lt _ (Nat.succ_pos _)
  · intro hne hexp
    unfold carouselStep
    simp only [if_neg (hlen hne), hexp]
    rfl
  · intro h
    have hne : ips.length ≠ 0 := by omega
    unfold carouselStep
    simp only [if_neg hne, dif_neg (by omega : ¬ idx ≥ ips.length)]
  · intro hne hge
    unfold carouselStep
    simp only [if_neg (hlen hne), dif_pos hge]
    rfl

/-- C4 witness: the amended statement at concrete inputs. -/
theorem C4_carousel_guarded_witness :
    carouselStep [] 5 true "inet" = (("", "No connection"), 5)
    ∧ (carouselStep [("eth0", "10.0.0.2")] 0 true "inet").2 < 2 :=
  ⟨(C4_carousel_guarded [] 5 true "inet").1 rfl,
   (C4_carousel_guarded [("eth0", "10.0.0.2")] 0 true "inet").2.1 (by decide) rfl⟩

/-! ## Claim C7 — duration guard -/

/-- C7: counterexample.  The claim says a nonpositive duration is clamped to
an epsilon; in fact a negative duration flips the rate's sign and a zero
duration raises `ZeroDivisionError` out of the sampler. -/
theorem C7_counterexample :
    rateMbps 0 1000000 (-1) = -8
    ∧ (get_system_stat sampler0 envZeroDur).2 = Except.error "ZeroDivisionError" := by
  refine ⟨by decide, by decide⟩

/-- C7 (amended): the sampler divides by the raw
`perf_counter() - old_tick` with no guard: with a negative duration a
growing counter yields a strictly negative rate, and with a zero duration
the division raises `ZeroDivisionError`, which propagates out of
`get_system_stat` (after `old_tick` has already been updated). -/
theorem C7_duration_unguarded :
    (∀ (oldB newB : ℤ) (d : ℚ), d < 0 → oldB < newB → rateMbps oldB newB d < 0)
    ∧ (∀ (st : SamplerState) (env : SampleEnv),
        env.ipList = .ok [] → env.now - st.oldTick = 0 →
        (get_system_stat st env).2 = Except.error "ZeroDivisionError") := by
  constructor
  · intro oldB newB d hd h
    have h1 : (oldB : ℚ) < (newB : ℚ) := by exact_mod_cast h
    have h2 : ((newB : ℚ) - oldB) / d < 0 := div_neg_of_pos_of_neg (by linarith) hd
    have h3 : ((newB : ℚ) - oldB) / d * 8 < 0 := by linarith
    have h4 : ((newB : ℚ) - oldB) / d * 8 / 1000000 < 0 :=
      div_neg_of_neg_of_pos h3 (by norm_num)
    exact h4
  · intro st env hip hdur
    unfold get_system_stat
    rw [hip]
    simp only [List.length_nil, probeIpInternet, if_pos rfl, hdur]
    rfl

/-- C7 witness: the amended statement at concrete inputs. -/
theorem C7_duration_unguarded_witness :
    rateMbps 0 1000000 (-1) < 0
    ∧ (get_system_stat sampler0 envZeroDur).2 = Except.error "ZeroDivisionError" :=
  ⟨C7_duration_unguarded.1 0 1000000 (-1) (by decide) (by decide),
   C7_duration_unguarded.2 sampler0 envZeroDur (by decide) (by decide)⟩

/-! ## Claim C8 — throttling bitmask decode -/

/-- Masking with a literal equal to a power of two tests that bit. -/
theorem and_mask_testBit (val mask k : ℕ) (hm : mask = 2 ^ k) :
    (val &&& mask ≠ 0) ↔ val.testBit k := by
  subst hm; exact and_pow_two_ne_zero val k

/-- C8: the five alarm flags stored by `decodeThrottled` are truthy exactly
when bits 0, 1, 2, 16, 17 of the bitmask are set; in particular `0x50001`
decodes to under-voltage and under-voltage-since-boot with the other three
flags clear. -/
theorem C8_alarm_decode :
    (∀ (val : ℕ) (s : SystemStats),
      ((decodeThrottled val s).under_voltage ≠ 0 ↔ val.testBit 0)
      ∧ ((decodeThrottled val s).throttling_heat ≠ 0 ↔ val.testBit 1)
      ∧ ((decodeThrottled val s).throttling_voltage ≠ 0 ↔ val.testBit 2)
      ∧ ((decodeThrottled val s).under_voltage_trg ≠ 0 ↔ val.testBit 16)
      ∧ ((decodeThrottled val s).throttling_heat_trg ≠ 0 ↔ val.testBit 17))
    ∧ ((decodeThrottled 0x50001 {}).under_voltage ≠ 0
      ∧ (decodeThrottled 0x50001 {}).throttling_heat = 0
      ∧ (decodeThrottled 0x50001 {}).throttling_voltage = 0
      ∧ (decodeThrottled 0x50001 {}).under_voltage_trg ≠ 0
      ∧ (decodeThrottled 0x50001 {}).throttling_heat_trg = 0) := by
  constructor
  · intro val s
    refine ⟨and_mask_testBit val 1 0 (by norm_num),
            and_mask_testBit val 2 1 (by norm_num),
            and_mask_testBit val 4 2 (by norm_num),
            and_mask_testBit val 65536 16 (by norm_num),
            and_mask_testBit val 131072 17 (by norm_num)⟩
  · refine ⟨by decide, by decide, by decide, by decide, by decide⟩

/-! ## Claim C9 — connectionless probe failure -/

/-- C9: with one interface present, a failure of `socket.socket` itself
makes the `finally` clause evaluate `s.close()` with `s` unbound: the
resulting `NameError` propagates out of `get_system_stat` and the sampling
pass aborts, instead of the sentinel completing the pass.  A failure of
`connect`/`getsockname` (socket created) does reach the sentinel. -/
theorem C9_probe_socket_crash :
    probeIpInternet 1 false true "10.0.0.5" = Except.error "NameError"
    ∧ (get_system_stat sampler0 envSockFail).2 = Except.error "NameError"
    ∧ probeIpInternet 1 true false "10.0.0.5" = Except.ok "No Internet" := by
  refine ⟨by decide, by decide, by decide⟩

/-! ## Claim C10 — partial INA219 read -/

/-- C10: when the sensor is configured, the bus-voltage read succeeds with
`v` and the current read then raises, the snapshot keeps only the voltage
assignment — `ina219_power_w` and `power_total_w` are exactly those of the
incoming snapshot — and the sampler state's sensor handle is unchanged by
every sampling pass, so the next tick retries. -/
theorem C10_ina_partial_read :
    (∀ (s : SystemStats) (v : ℚ) (e : String) (pRes : Except String ℚ),
      ina219Read true (.ok v) (.error e) pRes s = { s with ina219_voltage_v := v })
    ∧ (∀ (st : SamplerState) (env : SampleEnv),
        (get_system_stat st env).1.inaConfigured = st.inaConfigured) := by
  constructor
  · intro s v e pRes; rfl
  · intro st env
    unfold get_system_stat
    dsimp only
    split
    · rfl
    · split
      · rfl
      · split
        · rfl
        · split
          · rfl
          · split
            · rfl
            · rfl

/-! ## Claim C2 — scheduler behaviour on a sampler hard failure -/

/-- C2: counterexample.  On a tick whose sampling pass fails (throttle
status parse raises `IndexError`), with the display present and a snapshot
left over from an earlier tick, the loop still renders and displays a frame
(from the stale snapshot) — it does not skip rendering for that tick. -/
theorem C2_counterexample :
    (get_system_stat loopStale.sampler tickEnvFail.sample).2 = Except.error "IndexError"
    ∧ (mainTick loopStale tickEnvFail).2.sampleErrorLogged = true
    ∧ (mainTick loopStale tickEnvFail).2.displayed = true
    ∧ (mainTick loopStale tickEnvFail).2.shownFrame ≠ none := by
  refine ⟨by decide, by decide, by decide, by decide⟩

/-- C2 (amended): when the sampling pass raises, the Scheduler catches the
exception and logs it, keeps the previous snapshot variable, carries on (the
tick completes and the sampler globals advance so the next tick resamples)
— but it does not skip rendering: if the device is present and a snapshot
from an earlier tick exists, a frame built from that stale snapshot is still
displayed; only when no snapshot was ever assigned does the tick display
nothing, because the unbound-variable error is caught by the render guard. -/
theorem C2_sampler_failure_tick (st : LoopState) (env : TickEnv) (e : String)
    (hs : (get_system_stat st.sampler env.sample).2 = Except.error e) :
    (mainTick st env).2.sampleErrorLogged = true
    ∧ (mainTick st env).1.lastStats = st.lastStats
    ∧ (mainTick st env).1.sampler = (get_system_stat st.sampler env.sample).1
    ∧ (st.lastStats = none → (mainTick st env).2.displayed = false)
    ∧ (∀ s0 : SystemStats, st.lastStats = some s0 → st.disp = true → env.displayErr = none →
        (mainTick st env).2.displayed = true
        ∧ (mainTick st env).2.shownFrame =
            some (carouselStep s0.ip_list st.ipIndex env.ipExpired s0.ip_internet).1) := by
  refine ⟨?_, ?_, ?_, ?_, ?_⟩
  · simp only [mainTick, hs]
    repeat' split
    all_goals rfl
  · simp only [mainTick, hs]
    repeat' split
    all_goals rfl
  · simp only [mainTick, hs]
    repeat' split
    all_goals rfl
  · intro h0
    simp only [mainTick, hs, h0, renderBlock]
    repeat' split
    all_goals rfl
  · intro s0 h0 hdisp hderr
    simp only [mainTick, hs, h0, hdisp, hderr, renderBlock, if_true]
    exact ⟨trivial, trivial⟩

/-- C2 witness: the amended statement at the concrete failing tick. -/
theorem C2_sampler_failure_tick_witness :
    (mainTick loopStale tickEnvFail).2.sampleErrorLogged = true
    ∧ (mainTick loopStale tickEnvFail).2.displayed = true := by
  have h := C2_sampler_failure_tick loopStale tickEnvFail "IndexError" (by decide)
  exact ⟨h.1, (h.2.2.2.2 {} rfl rfl rfl).1⟩

/-! ## Claim C5 — rail parsing and power totals -/

/-- C5: in the strict parser, a rail in both dicts gets power
`current * voltage`; a rail missing from either contributes nothing (it is
absent from the power dict, and the total is a sum over the current entries
in which missing voltages contribute 0); empty input yields empty dicts and
total 0.  In the tolerant reader the total is a sum over exactly the rails
present in both maps (one-sided rails multiply by the 0 default), a garbled
token leaves the fold unchanged without affecting sibling tokens, and empty
input yields empty maps and total 0. -/
theorem C5_rail_power_model :
    (∀ (text : String) (n : String) (c v : ℚ),
        dictGet (strictCurrents text) n = some c →
        dictGet (strictVoltages text) n = some v →
        dictGet (strictPowerRails text) n = some (c * v))
    ∧ (∀ (text : String) (n : String),
        dictGet (strictCurrents text) n = none ∨ dictGet (strictVoltages text) n = none →
        dictGet (strictPowerRails text) n = none)
    ∧ (∀ text : String,
        strictPowerTotal text =
          ((strictCurrents text).map (fun p =>
            match dictGet (strictVoltages text) p.1 with
            | some w => p.2 * w
            | none => 0)).sum)
    ∧ (strictCurrents "" = [] ∧ strictVoltages "" = []
        ∧ strictPowerRails "" = [] ∧ strictPowerTotal "" = 0)
    ∧ (∀ text : String,
        readPmicTotal text =
          (((pmicAllRails (readPmicMaps text)).filter (fun r =>
              ((dictGet (readPmicMaps text).1 r).isSome
                && (dictGet (readPmicMaps text).2 r).isSome : Bool))).map (fun r =>
            dictGetD (readPmicMaps text).1 r 0 * dictGetD (readPmicMaps text).2 r 0)).sum)
    ∧ (∀ (text : String) (r : String),
        dictGet (readPmicMaps text).1 r = none ∨ dictGet (readPmicMaps text).2 r = none →
        dictGetD (readPmicMaps text).1 r 0 * dictGetD (readPmicMaps text).2 r 0 = 0)
    ∧ (∀ (l1 l2 : List (List Char)) (t : List Char), tokenGarbled t = true →
        readTokens (l1 ++ t :: l2) = readTokens (l1 ++ l2))
    ∧ (readPmicMaps "" = ([], []) ∧ readPmicTotal "" = 0) := by
  refine ⟨?_, ?_, ?_, ⟨rfl, rfl, rfl, rfl⟩, ?_, ?_, ?_, ⟨rfl, rfl⟩⟩
  · intro text
    exact dictGet_railPairs_some (strictVoltages text) (strictCurrents text)
  · intro text n h
    cases h with
    | inl h => exact dictGet_railPairs_none_left (strictVoltages text) (strictCurrents text) n h
    | inr h => exact dictGet_railPairs_none_right (strictVoltages text) (strictCurrents text) n h
  · intro text
    exact dictValuesSum_railPairs (strictVoltages text) (strictCurrents text)
  · intro text
    apply sum_map_filter_of_zero
    intro r _ hp
    cases ha : dictGet (readPmicMaps text).1 r with
    | none => simp [dictGetD, ha]
    | some w =>
      cases hb : dictGet (readPmicMaps text).2 r with
      | none => simp [dictGetD, hb]
      | some u => rw [ha, hb] at hp; simp at hp
  · intro text r h
    cases h with
    | inl h => simp [dictGetD, h]
    | inr h => simp [dictGetD, h]
  · intro l1 l2 t ht
    unfold readTokens
    rw [List.foldl_append, List.foldl_cons, procPart_garbled _ t ht, ← List.foldl_append]

/-- C5 witness: the strict product property at the two-rail sample and the
garbled-token property at a token with an unparseable value. -/
theorem C5_rail_power_model_witness :
    dictGet (strictPowerRails strictSample) "A" = some (2 * 3)
    ∧ readTokens [['a', '=', 'x', 'V'], ['B', '_', 'V', '=', '2', 'V']] =
        readTokens [['B', '_', 'V', '=', '2', 'V']] := by
  constructor
  · exact C5_rail_power_model.1 strictSample "A" 2 3 (by decide) (by decide)
  · have h := C5_rail_power_model.2.2.2.2.2.2.1 [] [['B', '_', 'V', '=', '2', 'V']]
      ['a', '=', 'x', 'V'] (by decide)
    simpa using h

/-! ## Claim C6 — strict format under the tolerant reader -/

/-- C6: counterexample.  On input in the strict unit-suffixed format the
tolerant reader does not reproduce the strict parser's result: on
`strictSample` the strict parser totals 6 W, the tolerant reader totals 0 W,
and its maps are keyed by the measurement tokens instead of the rail name. -/
theorem C6_counterexample :
    strictPowerTotal strictSample = 6
    ∧ readPmicTotal strictSample = 0
    ∧ readPmicTotal strictSample ≠ strictPowerTotal strictSample
    ∧ (readPmicMaps strictSample).1 ≠ strictVoltages strictSample := by
  refine ⟨by decide, by decide, by decide, by decide⟩

/-- C6 (amended): the tolerant reader accepts strict-format input without
error, but it does not reproduce the strict parser's result.  Whatever the
parse state, a strict-format rail-name token (such as `A_A`) carries no `=`
and is skipped, while the measurement token is keyed by itself —
`current(0)=2.0A` stores current 2 under `current(0)` and `volt(0)=3.0V`
stores voltage 3 under `volt(0)` — so voltage and current entries never
share a key; whenever no rail name is in both maps the tolerant total is 0.
On `strictSample` this gives maps keyed `volt(0)` / `current(0)` with
nothing pairing up and total 0, while the strict parser keys the rail `A`
and totals 6. -/
theorem C6_divergent_maps :
    (∀ st : Dict × Dict, procPart st ("A_A".toList) = st)
    ∧ (∀ st : Dict × Dict, procPart st ("current(0)=2.0A".toList) =
        (st.1, dictSet st.2 "current(0)" 2))
    ∧ (∀ st : Dict × Dict, procPart st ("volt(0)=3.0V".toList) =
        (dictSet st.1 "volt(0)" 3, st.2))
    ∧ (∀ text : String,
        (∀ r, dictGet (readPmicMaps text).1 r = none
            ∨ dictGet (readPmicMaps text).2 r = none) →
        readPmicTotal text = 0)
    ∧ strictVoltages strictSample = [("A", 3)]
    ∧ strictCurrents strictSample = [("A", 2)]
    ∧ strictPowerRails strictSample = [("A", 6)]
    ∧ (readPmicMaps strictSample).1 = [("volt(0)", 3)]
    ∧ (readPmicMaps strictSample).2 = [("current(0)", 2)]
    ∧ railPairs (readPmicMaps strictSample).2 (readPmicMaps strictSample).1 = []
    ∧ readPmicTotal strictSample = 0
    ∧ strictPowerTotal strictSample = 6 := by
  refine ⟨fun _ => rfl, ?_, ?_, ?_, by decide, by decide, by decide, by decide,
    by decide, by decide, by decide, by decide⟩
  · intro st
    have hv : pyFloat (pyRstripSet ("2.0A".toList) stripUnits) = some 2 := by decide
    unfold procPart
    rw [show splitFirstEq ("current(0)=2.0A".toList) =
          some ("current(0)".toList, "2.0A".toList) from by decide]
    dsimp only
    rw [hv]
    dsimp only
    rw [if_neg (by decide), if_pos (by decide)]
    rw [show pyEndsWith ("2.0A".toList) ['m', 'V'] = false from by decide,
        show pyEndsWith ("2.0A".toList) ['m', 'A'] = false from by decide]
    rfl
  · intro st
    have hv : pyFloat (pyRstripSet ("3.0V".toList) stripUnits) = some 3 := by decide
    unfold procPart
    rw [show splitFirstEq ("volt(0)=3.0V".toList) =
          some ("volt(0)".toList, "3.0V".toList) from by decide]
    dsimp only
    rw [hv]
    dsimp only
    rw [if_pos (by decide)]
    rw [show pyEndsWith ("3.0V".toList) ['m', 'V'] = false from by decide,
        show pyEndsWith ("3.0V".toList) ['m', 'A'] = false from by decide]
    rfl
  · intro text h
    unfold readPmicTotal
    dsimp only
    apply List.sum_eq_zero
    intro x hx
    rw [List.mem_map] at hx
    obtain ⟨r, _, rfl⟩ := hx
    rcases h r with h1 | h1 <;> simp [dictGetD, h1]

end RPiSupport
